import Mathlib

/-!
Shallow embedding of the mlflow-autostop watchdog (Go).

The program polls an MLflow tracking server for run snapshots, compares
metric readings against configured thresholds, and on a breach sends a
notification and issues a stop command.  Effectful Go functions are
embedded as pure Lean functions over explicit environment values that
stand for the outcomes of the HTTP calls (the transport and the remote
service are external collaborators); metric values (Go float64) are
modelled as rationals.
-/

/-- Mirrors Go type `types.Metric`: one metric reading
(`Key`, `Value`, `Timestamp`, `Step`). -/
structure Metric where
  key : String
  value : Rat
  timestamp : Int
  step : Int
deriving DecidableEq

/-- Mirrors Go type `types.RunInfo` (`RunID`, `Status`, `ExperimentID`). -/
structure RunInfo where
  runID : String
  status : String
  experimentID : String
deriving DecidableEq

/-- One run entry of the tracking API: mirrors the anonymous Go struct
with fields `Info` and `Data` (the `Data` wrapper holding the single
field `Metrics` is flattened into `metrics`). -/
structure RunEntry where
  info : RunInfo
  metrics : List Metric
deriving DecidableEq

/-- Mirrors Go type `types.GetRunResponse` (field `Run`). -/
structure GetRunResponse where
  run : RunEntry
deriving DecidableEq

/-- Go `map[string]float64` threshold table, as an association list with
distinct keys looked up by `List.lookup`. -/
abbrev ThresholdTable := List (String × Rat)

/-- Mirrors the Go `config.Config` struct (the complete, layered-config
variant): tracking URI, telegram credentials, poll interval, threshold
table, slack webhook URL and channel selection. -/
structure Config where
  MLflowTrackingURI : String
  TelegramBotToken : String
  TelegramChatID : String
  PollInterval : Int
  MetricThresholds : ThresholdTable
  SlackWebhookURL : String
  MessageChannels : String

/-- The error a fetch helper returns to its caller: a transport failure
(`http.Get`/`http.Post` error, body-read errors folded in), a non-200
response status, or a JSON parse failure. -/
inductive FetchErr where
  | transport (msg : String)
  | badStatus (code : Nat)
  | parse (msg : String)
deriving DecidableEq

/-- Environment value standing for the outcome of one HTTP exchange whose
body is parsed into an `α`: either the transport fails, or a response
arrives with a status code and (if consulted) a parse result. -/
inductive HttpResp (α : Type) where
  | transportError (msg : String)
  | response (status : Nat) (parsed : Except String α)

/-- Environment value for an HTTP exchange whose body is never parsed
(telegram/slack sends): transport failure or a status code. -/
inductive HttpSimple where
  | transportError (msg : String)
  | status (code : Nat)

/-! ### Fixed 4-decimal rendering (Go `fmt.Sprintf` verb `%.4f`) -/

/-- Decimal digit character for `n % 10`. -/
def digitChar (n : Nat) : Char := Char.ofNat (48 + n % 10)

/-- Decimal digits of `n` (fuelled; fuel `n+1` always suffices). -/
def natDigitsAux : Nat → Nat → List Char → List Char
  | 0, _, acc => acc
  | fuel+1, n, acc =>
    if n < 10 then digitChar n :: acc
    else natDigitsAux fuel (n / 10) (digitChar (n % 10) :: acc)

/-- Decimal rendering of a natural number. -/
def natToString (n : Nat) : String := ⟨natDigitsAux (n + 1) n []⟩

/-- Digits of `n` left-padded with zeros to width 4. -/
def padTo4 (n : Nat) : List Char :=
  let ds := natDigitsAux (n + 1) n []
  List.replicate (4 - ds.length) '0' ++ ds

/-- `q` scaled by `10^4` and rounded to the nearest integer
(`⌊q * 10000 + 1/2⌋`), computed directly on numerator and denominator so
it evaluates by kernel reduction. -/
def scaled4 (q : Rat) : Int := Int.fdiv (q.num * 20000 + q.den) (2 * q.den)

/-- Model of Go `%.4f`: fixed-point rendering with exactly four decimal
places.  Go rounds the binary float to nearest with ties to even; the
model rounds the rational to nearest with ties up — they agree on every
value that is not an exact tie at the fifth decimal (no binary float is). -/
def formatFixed4 (q : Rat) : String :=
  let s := scaled4 q
  let sign : String := if s < 0 then "-" else ""
  let n := s.natAbs
  sign ++ natToString (n / 10000) ++ "." ++ ⟨padTo4 (n % 10000)⟩

/-! ### Threshold evaluation (the metric scan inlined in
`MonitorSpecificRun` and `checkRunMetrics`) -/

/-- The evaluation outcome: keep polling, or stop carrying the triggering
metric and its breached threshold (`cont` models the spec's "continue"). -/
inductive Decision where
  | cont
  | stop (metric : Metric) (threshold : Rat)
deriving DecidableEq

/-- The Go metric scan: for each reading in delivered order,
`threshold, exists := config.MetricThresholds[metric.Key]`; if
`exists && metric.Value > threshold` the scan returns at once with that
metric; otherwise the next reading is examined; an exhausted scan means
the run is within thresholds. -/
def evaluateMetrics (thresholds : ThresholdTable) : List Metric → Decision
  | [] => .cont
  | m :: rest =>
    match List.lookup m.key thresholds with
    | some t => if m.value > t then .stop m t else evaluateMetrics thresholds rest
    | none => evaluateMetrics thresholds rest

/-- Whether one reading breaches: its key is in the table and its value
strictly exceeds the bound. -/
def breaches (thresholds : ThresholdTable) (m : Metric) : Bool :=
  match List.lookup m.key thresholds with
  | some t => decide (m.value > t)
  | none => false

/-- The stop message built by the Go code:
`fmt.Sprintf("🚫 Stopping run %s: Metric %s = %.4f exceeded threshold %.4f",
runID, metric.Key, metric.Value, threshold)`. -/
def stopMessage (runID : String) (m : Metric) (threshold : Rat) : String :=
  "🚫 Stopping run " ++ runID ++ ": Metric " ++ m.key ++ " = " ++
    formatFixed4 m.value ++ " exceeded threshold " ++ formatFixed4 threshold

/-- `sub` occurs contiguously inside `s`. -/
def containsStr (s sub : String) : Prop := sub.data <:+: s.data

instance (s sub : String) : Decidable (containsStr s sub) :=
  inferInstanceAs (Decidable (sub.data <:+: s.data))

/-! ### Observable effects of one watcher action

Only the two outward-facing calls are recorded (log lines are
informational in the source and carry no machine contract). -/

/-- An outward call made by the watcher: a notification send (with the
result the notifier returned) or a stop command issued against the
tracking service (with the result of that HTTP call).  `none` is Go's
`nil` error. -/
inductive Effect where
  | notified (message : String) (result : Option String)
  | stopIssued (runID : String) (result : Option String)
deriving DecidableEq

/-- Counts the stop commands in an effect trace. -/
def countStops (effects : List Effect) : Nat :=
  effects.countP fun e =>
    match e with
    | .stopIssued _ _ => true
    | .notified _ _ => false

/-! ### Fetch helpers (Go `getRunDetails`, `getActiveRunsInExperiment`,
`getAllRuns`, `getAllActiveRuns`) -/

/-- Go `getRunDetails`: `http.Get` on `/runs/get`; a transport error, a
non-200 status, or an unmarshal failure each return an error to the
caller; otherwise the parsed `GetRunResponse` is returned. -/
def getRunDetails (resp : HttpResp GetRunResponse) : Except FetchErr GetRunResponse :=
  match resp with
  | .transportError m => .error (.transport m)
  | .response status parsed =>
    if status ≠ 200 then .error (.badStatus status)
    else
      match parsed with
      | .error m => .error (.parse m)
      | .ok r => .ok r

/-- Go `getActiveRunsInExperiment`: `http.Post` on `/runs/search` with the
experiment-scoped `attributes.status = 'RUNNING'` filter body; the same
error surfacing as `getRunDetails`, otherwise the parsed run list. -/
def getActiveRunsInExperiment (resp : HttpResp (List RunEntry)) : Except FetchErr (List RunEntry) :=
  match resp with
  | .transportError m => .error (.transport m)
  | .response status parsed =>
    if status ≠ 200 then .error (.badStatus status)
    else
      match parsed with
      | .error m => .error (.parse m)
      | .ok runs => .ok runs

/-- The three search request bodies `getAllActiveRuns` tries, in source
order, as named variants (each stands for one JSON body literal). -/
inductive SearchFormulation where
  /-- Body 1: filter `attributes.status = 'RUNNING'`. -/
  | filterAttributesStatusRunning
  /-- Body 2: filter `status = 'RUNNING'`. -/
  | filterStatusRunning
  /-- Body 3: `run_view_type` set to `ACTIVE_ONLY`. -/
  | runViewTypeActiveOnly
deriving DecidableEq

/-- The ordered formulation sequence of the Go `requestBodies` slice. -/
def searchFormulations : List SearchFormulation :=
  [.filterAttributesStatusRunning, .filterStatusRunning, .runViewTypeActiveOnly]

/-- The run list one formulation contributes in `getAllActiveRuns`: a
transport error, non-200 status, or parse failure contributes nothing
(the loop moves to the next body), as does a parsed empty list. -/
def usableRuns (o : HttpResp (List RunEntry)) : List RunEntry :=
  match o with
  | .transportError _ => []
  | .response status parsed =>
    if status ≠ 200 then []
    else
      match parsed with
      | .error _ => []
      | .ok runs => runs

/-- The Go loop over `requestBodies`: each failing or empty formulation
is skipped with `continue`; the first parsed response holding at least
one run is returned at once. -/
def tryFormulations (respond : SearchFormulation → HttpResp (List RunEntry)) :
    List SearchFormulation → List RunEntry
  | [] => []
  | f :: rest =>
    match respond f with
    | .transportError _ => tryFormulations respond rest
    | .response status parsed =>
      if status ≠ 200 then tryFormulations respond rest
      else
        match parsed with
        | .error _ => tryFormulations respond rest
        | .ok runs =>
          if runs.length > 0 then runs else tryFormulations respond rest

/-- Go `getAllActiveRuns`: tries the formulations in order and, when every
formulation fails or is empty, returns an empty `GetRunsResponse` with a
`nil` error — every return of the Go function carries `nil` as error. -/
def getAllActiveRuns (respond : SearchFormulation → HttpResp (List RunEntry)) :
    Except FetchErr (List RunEntry) :=
  .ok (tryFormulations respond searchFormulations)

/-! ### Notifier gateway (Go `messaging.SendNotification`,
`telegram.SendTelegramNotification`, `slack.SendSlackNotification`) -/

/-- Go constant `ChannelTelegram`. -/
def ChannelTelegram : String := "TELEGRAM"
/-- Go constant `ChannelSlack`. -/
def ChannelSlack : String := "SLACK"
/-- Go constant `ChannelBoth`. -/
def ChannelBoth : String := "BOTH"

/-- Go `SendTelegramNotification`: builds the bot-API endpoint from the
configured token and posts `chat_id`/`text`/`parse_mode`; its returned
error depends solely on the HTTP outcome — a transport failure or a
non-200 status fails, a 200 response succeeds.  No local check of the
bot token or chat ID is performed anywhere in the function. -/
def SendTelegramNotification (cfg : Config) (resp : HttpSimple) : Option String :=
  match resp with
  | .transportError m => some ("failed to send Telegram notification: " ++ m)
  | .status code =>
    if code ≠ 200 then some ("telegram API returned status code " ++ natToString code)
    else none

/-- Go `SendSlackNotification`: an unset webhook URL is rejected up front
as a configuration error, before any transport call; otherwise the
message is posted to the webhook and a transport failure or non-200
status fails. -/
def SendSlackNotification (cfg : Config) (resp : HttpSimple) : Option String :=
  if cfg.SlackWebhookURL = "" then some "slack webhook URL is not configured"
  else
    match resp with
    | .transportError m => some ("failed to send Slack notification: " ++ m)
    | .status code =>
      if code ≠ 200 then some ("Slack API returned status code " ++ natToString code)
      else none

/-- Outcomes of the two notification transports for one send, as free
environment values. -/
structure TransportEnv where
  telegramResp : HttpSimple
  slackResp : HttpSimple

/-- What one `SendNotification` call did and returned. -/
structure NotifyTrace where
  telegramAttempted : Bool
  slackAttempted : Bool
  result : Option String
deriving DecidableEq

/-- Model of Go `strings.ToUpper`: every character mapped to upper case
(ASCII suffices for the channel constants). -/
def toUpperStr (s : String) : String := ⟨s.data.map Char.toUpper⟩

/-- Go `strings.ToUpper(config.MessageChannels)` followed by the
empty-string default to `ChannelTelegram`. -/
def normalizeChannels (cfg : Config) : String :=
  let channels := toUpperStr cfg.MessageChannels
  if channels = "" then ChannelTelegram else channels

/-- Go `messaging.SendNotification`: normalizes the channel selection,
conditionally attempts telegram and slack capturing each error, then for
`BOTH` fails only when both errors are non-nil (returning the telegram
error as representative), for a single channel returns that channel's
error, and for anything else falls through to the final `return nil`. -/
def SendNotification (cfg : Config) (env : TransportEnv) : NotifyTrace :=
  let channels := normalizeChannels cfg
  let telegramAttempted : Bool := channels == ChannelTelegram || channels == ChannelBoth
  let telegramErr : Option String :=
    if telegramAttempted then SendTelegramNotification cfg env.telegramResp else none
  let slackAttempted : Bool := channels == ChannelSlack || channels == ChannelBoth
  let slackErr : Option String :=
    if slackAttempted then SendSlackNotification cfg env.slackResp else none
  let result : Option String :=
    if channels == ChannelBoth then
      if telegramErr.isSome && slackErr.isSome then telegramErr else none
    else if channels == ChannelTelegram then telegramErr
    else if channels == ChannelSlack then slackErr
    else none
  ⟨telegramAttempted, slackAttempted, result⟩

/-! ### Run watcher (Go `MonitorSpecificRun`, `checkRunMetrics`,
`MonitorExperiment`, `MonitorAllActiveRuns`)

Each loop iteration is driven by an environment record holding the
outcomes of the HTTP calls that iteration would make. -/

/-- Environment of one `MonitorSpecificRun` iteration: the `getRunDetails`
outcome, and the results the notifier and the stop command would return
if invoked. -/
structure PollEnv where
  fetch : Except FetchErr GetRunResponse
  notifyErr : Option String
  stopErr : Option String

/-- Where one `MonitorSpecificRun` iteration leaves the watcher:
`retry` logs the fetch error, sleeps one poll interval and re-enters the
loop; `finishedNonRunning` is the normal return on a non-`RUNNING`
status; `stopped` is the return after the breach actions;
`continuePolling` sleeps one poll interval and re-enters the loop. -/
inductive StepOutcome where
  | retry (e : FetchErr)
  | finishedNonRunning (status : String)
  | stopped (metric : Metric) (threshold : Rat)
  | continuePolling
deriving DecidableEq

/-- One iteration of the Go `MonitorSpecificRun` loop body: on fetch
error log-sleep-retry; on a status other than `"RUNNING"` return with no
further action; otherwise scan the metrics and, on the first breach,
send the notification and then — regardless of the notification result —
issue the stop command, and return; a clean scan sleeps and loops. -/
def monitorSpecificRunStep (thresholds : ThresholdTable) (runID : String)
    (env : PollEnv) : StepOutcome × List Effect :=
  match env.fetch with
  | .error e => (.retry e, [])
  | .ok resp =>
    if resp.run.info.status ≠ "RUNNING" then
      (.finishedNonRunning resp.run.info.status, [])
    else
      match evaluateMetrics thresholds resp.run.metrics with
      | .stop m t =>
        (.stopped m t,
          [.notified (stopMessage runID m t) env.notifyErr,
           .stopIssued runID env.stopErr])
      | .cont => (.continuePolling, [])

/-- The effect trace of `MonitorSpecificRun` run against a stream of
iteration environments: `retry` and `continuePolling` iterations loop on
to the next environment, while `finishedNonRunning` and `stopped` return
from the function, discarding the rest of the stream. -/
def monitorSpecificRunTrace (thresholds : ThresholdTable) (runID : String) :
    List PollEnv → List Effect
  | [] => []
  | env :: rest =>
    match monitorSpecificRunStep thresholds runID env with
    | (.retry _, effects) => effects ++ monitorSpecificRunTrace thresholds runID rest
    | (.continuePolling, effects) => effects ++ monitorSpecificRunTrace thresholds runID rest
    | (.finishedNonRunning _, effects) => effects
    | (.stopped _ _, effects) => effects

/-- Go `checkRunMetrics` (the per-run check of the experiment and global
loops): fetch the run's details — on error just log and return — then
scan the metrics with NO check of the snapshot's status; on the first
breach send the notification and then unconditionally issue the stop
command. -/
def checkRunMetrics (thresholds : ThresholdTable) (runID : String)
    (fetch : Except FetchErr GetRunResponse)
    (notifyErr stopErr : Option String) : List Effect :=
  match fetch with
  | .error _ => []
  | .ok resp =>
    match evaluateMetrics thresholds resp.run.metrics with
    | .stop m t =>
      [.notified (stopMessage runID m t) notifyErr,
       .stopIssued runID stopErr]
    | .cont => []

/-- The run entry with its status replaced (used to state that
`checkRunMetrics` is insensitive to the snapshot's status). -/
def withStatus (resp : GetRunResponse) (s : String) : GetRunResponse :=
  { run := { resp.run with info := { resp.run.info with status := s } } }

/-- Environment of one `MonitorExperiment` cycle: the search outcome and,
per discovered run ID, the `getRunDetails` outcome and the notifier/stop
results `checkRunMetrics` would observe. -/
structure CycleEnv where
  search : Except FetchErr (List RunEntry)
  details : String → Except FetchErr GetRunResponse
  notifyErr : Option String
  stopErr : Option String

/-- One cycle of the Go `MonitorExperiment` loop: a search error or an
empty result sleeps and continues with no action; otherwise every
discovered run is passed through `checkRunMetrics` in order and the
cycle ends with a sleep. -/
def monitorExperimentCycle (thresholds : ThresholdTable) (env : CycleEnv) : List Effect :=
  match env.search with
  | .error _ => []
  | .ok runs =>
    (runs.map fun r =>
      checkRunMetrics thresholds r.info.runID (env.details r.info.runID)
        env.notifyErr env.stopErr).flatten

/-- The effect trace of `MonitorExperiment` over a stream of cycle
environments; the Go loop never returns, so every cycle contributes. -/
def monitorExperimentTrace (thresholds : ThresholdTable) : List CycleEnv → List Effect
  | [] => []
  | c :: rest => monitorExperimentCycle thresholds c ++ monitorExperimentTrace thresholds rest

/-- Environment of one `MonitorAllActiveRuns` cycle: the per-formulation
search outcomes and the per-run check environments. -/
structure GlobalCycleEnv where
  search : SearchFormulation → HttpResp (List RunEntry)
  details : String → Except FetchErr GetRunResponse
  notifyErr : Option String
  stopErr : Option String

/-- One cycle of the Go `MonitorAllActiveRuns` loop: discover runs with
`getAllActiveRuns` (an error or an empty set sleeps and continues), then
pass each discovered run through `checkRunMetrics` in order. -/
def monitorAllActiveRunsCycle (thresholds : ThresholdTable) (env : GlobalCycleEnv) : List Effect :=
  match getAllActiveRuns env.search with
  | .error _ => []
  | .ok runs =>
    (runs.map fun r =>
      checkRunMetrics thresholds r.info.runID (env.details r.info.runID)
        env.notifyErr env.stopErr).flatten

/-! ## Helper lemmas -/

/-- A reading that does not breach is skipped by the scan. -/
theorem evaluateMetrics_cons_skip (tbl : ThresholdTable) (x : Metric) (rest : List Metric)
    (hx : breaches tbl x = false) :
    evaluateMetrics tbl (x :: rest) = evaluateMetrics tbl rest := by
  unfold breaches at hx
  have step : evaluateMetrics tbl (x :: rest) =
      match List.lookup x.key tbl with
      | some t => if x.value > t then Decision.stop x t else evaluateMetrics tbl rest
      | none => evaluateMetrics tbl rest := rfl
  rw [step]
  cases h : List.lookup x.key tbl with
  | none => rfl
  | some t =>
    rw [h] at hx
    simp only [decide_eq_false_iff_not] at hx
    simp [hx]

/-- A breaching reading at the head of the scan stops at once, whatever
follows it. -/
theorem evaluateMetrics_cons_breach (tbl : ThresholdTable) (m : Metric) (rest : List Metric)
    (t : Rat) (hlook : List.lookup m.key tbl = some t) (hgt : m.value > t) :
    evaluateMetrics tbl (m :: rest) = .stop m t := by
  have step : evaluateMetrics tbl (m :: rest) =
      match List.lookup m.key tbl with
      | some t => if m.value > t then Decision.stop m t else evaluateMetrics tbl rest
      | none => evaluateMetrics tbl rest := rfl
  rw [step, hlook]
  simp [hgt]

/-- A breach-free block at the front of the scan is skipped whole. -/
theorem evaluateMetrics_append_skip (tbl : ThresholdTable) (pre tail : List Metric)
    (hpre : ∀ x ∈ pre, breaches tbl x = false) :
    evaluateMetrics tbl (pre ++ tail) = evaluateMetrics tbl tail := by
  induction pre with
  | nil => rfl
  | cons x xs ih =>
    rw [List.cons_append, evaluateMetrics_cons_skip tbl x (xs ++ tail) (hpre x (by simp))]
    exact ih fun y hy => hpre y (by simp [hy])

/-- A scan over breach-free readings decides to continue. -/
theorem evaluateMetrics_no_breach (tbl : ThresholdTable) (ms : List Metric)
    (h : ∀ x ∈ ms, breaches tbl x = false) :
    evaluateMetrics tbl ms = .cont := by
  have := evaluateMetrics_append_skip tbl ms [] h
  simpa using this

/-! ## Claims -/

/-- C2: for every running-status snapshot and every threshold table, the
scan inspects the readings in delivered order, compares only keys
present in the table with strict greater-than, and the first reading
strictly above its bound yields the stop decision carrying that metric,
independently of everything after it (short-circuit); a scan in which no
monitored reading exceeds its bound decides to continue. -/
theorem evaluateMetrics_first_breach_wins (tbl : ThresholdTable) (pre rest : List Metric)
    (m : Metric) (t : Rat) :
    ((∀ x ∈ pre, breaches tbl x = false) → List.lookup m.key tbl = some t →
      m.value > t → evaluateMetrics tbl (pre ++ m :: rest) = .stop m t)
    ∧ ((∀ x ∈ pre, breaches tbl x = false) → evaluateMetrics tbl pre = .cont) := by
  constructor
  · intro hpre hlook hgt
    rw [evaluateMetrics_append_skip tbl pre (m :: rest) hpre]
    exact evaluateMetrics_cons_breach tbl m rest t hlook hgt
  · exact evaluateMetrics_no_breach tbl pre

/-- Witness for C2 on the spec's own example: threshold table
`loss ↦ 0.5`, readings `accuracy = 0.9` then `loss = 0.7`; the decision
is stop triggered by `loss`, and the breach-free prefix alone decides
continue. -/
theorem evaluateMetrics_first_breach_wins_witness :
    evaluateMetrics [("loss", mkRat 1 2)]
      [⟨"accuracy", mkRat 9 10, 0, 0⟩, ⟨"loss", mkRat 7 10, 0, 0⟩] =
      .stop ⟨"loss", mkRat 7 10, 0, 0⟩ (mkRat 1 2) ∧
    evaluateMetrics [("loss", mkRat 1 2)] [⟨"accuracy", mkRat 9 10, 0, 0⟩] = .cont := by
  constructor
  · exact (evaluateMetrics_first_breach_wins [("loss", mkRat 1 2)]
      [⟨"accuracy", mkRat 9 10, 0, 0⟩] [] ⟨"loss", mkRat 7 10, 0, 0⟩ (mkRat 1 2)).1
      (by decide) (by decide) (by decide)
  · exact (evaluateMetrics_first_breach_wins [("loss", mkRat 1 2)]
      [⟨"accuracy", mkRat 9 10, 0, 0⟩] [] ⟨"loss", mkRat 7 10, 0, 0⟩ (mkRat 1 2)).2
      (by decide)

/-- C1 counterexample: on the experiment watch path, `checkRunMetrics`
performs no status check.  One `MonitorExperiment` cycle in which the
search lists run `r1` but the re-fetched snapshot has status
`"FINISHED"` with `loss = 2` over the bound `1` still produces the
notification and the stop command, so the claim that no stop is ever
produced for a non-`RUNNING` snapshot on every watch path is false. -/
theorem checkRunMetrics_ignores_status_cx :
    monitorExperimentCycle [("loss", (1 : Rat))]
      { search := .ok [{ info := { runID := "r1", status := "RUNNING", experimentID := "e1" },
                         metrics := [] }],
        details := fun _ =>
          .ok { run := { info := { runID := "r1", status := "FINISHED", experimentID := "e1" },
                         metrics := [⟨"loss", 2, 0, 0⟩] } },
        notifyErr := none, stopErr := none } =
      [.notified "🚫 Stopping run r1: Metric loss = 2.0000 exceeded threshold 1.0000" none,
       .stopIssued "r1" none] := by decide

/-- C1 amended: on the single-run path a snapshot whose status is not
`"RUNNING"` ends monitoring as a normal completion with no evaluation,
notification, or stop command; on the experiment and global scan paths
`checkRunMetrics` performs no status check at all — its behaviour is
invariant under replacing the re-fetched snapshot's status. -/
theorem monitor_skip_non_running_amended (tbl : ThresholdTable) (runID : String)
    (env : PollEnv) (resp : GetRunResponse) (s : String)
    (notifyErr stopErr : Option String) :
    (env.fetch = .ok resp → resp.run.info.status ≠ "RUNNING" →
      monitorSpecificRunStep tbl runID env = (.finishedNonRunning resp.run.info.status, []))
    ∧ checkRunMetrics tbl runID (.ok (withStatus resp s)) notifyErr stopErr =
        checkRunMetrics tbl runID (.ok resp) notifyErr stopErr := by
  constructor
  · intro hf hs
    unfold monitorSpecificRunStep
    rw [hf]
    simp [hs]
  · unfold checkRunMetrics withStatus
    rfl

/-- Witness for C1 amended: a poll whose fetched snapshot has status
`"FINISHED"` and a breaching reading ends single-run monitoring with no
effects. -/
theorem monitor_skip_non_running_amended_witness :
    monitorSpecificRunStep [("loss", (1 : Rat))] "r1"
      { fetch := .ok { run := { info := { runID := "r1", status := "FINISHED", experimentID := "e1" },
                                metrics := [⟨"loss", 2, 0, 0⟩] } },
        notifyErr := none, stopErr := none } =
      (.finishedNonRunning "FINISHED", []) := by
  exact (monitor_skip_non_running_amended [("loss", (1 : Rat))] "r1"
    { fetch := .ok { run := { info := { runID := "r1", status := "FINISHED", experimentID := "e1" },
                              metrics := [⟨"loss", 2, 0, 0⟩] } },
      notifyErr := none, stopErr := none }
    { run := { info := { runID := "r1", status := "FINISHED", experimentID := "e1" },
               metrics := [⟨"loss", 2, 0, 0⟩] } } "X" none none).1 rfl (by decide)

/-- C3: with channel selection `both`, telegram and slack are each
attempted; the call succeeds exactly when at least one channel
succeeded, and when both fail it returns the telegram error as
representative. -/
theorem sendNotification_both_semantics (cfg : Config) (env : TransportEnv)
    (h : normalizeChannels cfg = ChannelBoth) :
    (SendNotification cfg env).telegramAttempted = true
    ∧ (SendNotification cfg env).slackAttempted = true
    ∧ ((SendNotification cfg env).result = none ↔
        (SendTelegramNotification cfg env.telegramResp = none ∨
         SendSlackNotification cfg env.slackResp = none))
    ∧ (∀ e e', SendTelegramNotification cfg env.telegramResp = some e →
        SendSlackNotification cfg env.slackResp = some e' →
        (SendNotification cfg env).result = some e) := by
  cases hT : SendTelegramNotification cfg env.telegramResp with
  | none =>
    cases hS : SendSlackNotification cfg env.slackResp with
    | none => simp [SendNotification, h, hT, hS, ChannelBoth, ChannelTelegram, ChannelSlack]
    | some e => simp [SendNotification, h, hT, hS, ChannelBoth, ChannelTelegram, ChannelSlack]
  | some e =>
    cases hS : SendSlackNotification cfg env.slackResp with
    | none => simp [SendNotification, h, hT, hS, ChannelBoth, ChannelTelegram, ChannelSlack]
    | some e' => simp [SendNotification, h, hT, hS, ChannelBoth, ChannelTelegram, ChannelSlack]

/-- Witness for C3: selection `both`, telegram transport failure, slack
delivered with HTTP 200 — both channels attempted and the overall send
succeeds. -/
theorem sendNotification_both_semantics_witness :
    (SendNotification
        { MLflowTrackingURI := "http://mlflow:5000", TelegramBotToken := "t0k",
          TelegramChatID := "42", PollInterval := 30, MetricThresholds := [],
          SlackWebhookURL := "https://hooks.slack.example/T1/B1", MessageChannels := "both" }
        { telegramResp := .transportError "dial tcp: connection refused",
          slackResp := .status 200 }).telegramAttempted = true
    ∧ (SendNotification
        { MLflowTrackingURI := "http://mlflow:5000", TelegramBotToken := "t0k",
          TelegramChatID := "42", PollInterval := 30, MetricThresholds := [],
          SlackWebhookURL := "https://hooks.slack.example/T1/B1", MessageChannels := "both" }
        { telegramResp := .transportError "dial tcp: connection refused",
          slackResp := .status 200 }).slackAttempted = true
    ∧ (SendNotification
        { MLflowTrackingURI := "http://mlflow:5000", TelegramBotToken := "t0k",
          TelegramChatID := "42", PollInterval := 30, MetricThresholds := [],
          SlackWebhookURL := "https://hooks.slack.example/T1/B1", MessageChannels := "both" }
        { telegramResp := .transportError "dial tcp: connection refused",
          slackResp := .status 200 }).result = none := by
  obtain ⟨h1, h2, h3, _⟩ := sendNotification_both_semantics
    { MLflowTrackingURI := "http://mlflow:5000", TelegramBotToken := "t0k",
      TelegramChatID := "42", PollInterval := 30, MetricThresholds := [],
      SlackWebhookURL := "https://hooks.slack.example/T1/B1", MessageChannels := "both" }
    { telegramResp := .transportError "dial tcp: connection refused",
      slackResp := .status 200 }
    (by decide)
  exact ⟨h1, h2, h3.mpr (Or.inr (by decide))⟩

/-- C10: when the upper-cased channel selection is non-empty and none of
`TELEGRAM`, `SLACK`, `BOTH`, `SendNotification` attempts no channel and
still returns `nil` — the unrecognized selection is silently reported as
success. -/
theorem sendNotification_unknown_channel_silent (cfg : Config) (env : TransportEnv)
    (h0 : toUpperStr cfg.MessageChannels ≠ "")
    (h1 : toUpperStr cfg.MessageChannels ≠ ChannelTelegram)
    (h2 : toUpperStr cfg.MessageChannels ≠ ChannelSlack)
    (h3 : toUpperStr cfg.MessageChannels ≠ ChannelBoth) :
    SendNotification cfg env =
      { telegramAttempted := false, slackAttempted := false, result := none } := by
  have hn : normalizeChannels cfg = toUpperStr cfg.MessageChannels := by
    unfold normalizeChannels
    simp [h0]
  unfold SendNotification
  rw [hn]
  simp [h1, h2, h3]

/-- Witness for C10: selection `webhook` (upper-cased `WEBHOOK`) attempts
nothing and returns success even though both transports would fail. -/
theorem sendNotification_unknown_channel_silent_witness :
    SendNotification
      { MLflowTrackingURI := "http://mlflow:5000", TelegramBotToken := "",
        TelegramChatID := "", PollInterval := 30, MetricThresholds := [],
        SlackWebhookURL := "", MessageChannels := "webhook" }
      { telegramResp := .transportError "no route to host",
        slackResp := .transportError "no route to host" } =
      { telegramAttempted := false, slackAttempted := false, result := none } :=
  sendNotification_unknown_channel_silent
    { MLflowTrackingURI := "http://mlflow:5000", TelegramBotToken := "",
      TelegramChatID := "", PollInterval := 30, MetricThresholds := [],
      SlackWebhookURL := "", MessageChannels := "webhook" }
    { telegramResp := .transportError "no route to host",
      slackResp := .transportError "no route to host" }
    (by decide) (by decide) (by decide) (by decide)

/-- C7 counterexample: `SendTelegramNotification` performs no local check
of the bot token or chat ID — with both empty and a remote answering
HTTP 200 it returns `nil` (success), so "a telegram send fails whenever
the bot token or the chat ID is absent" is false of the code. -/
theorem telegram_no_credential_check_cx :
    SendTelegramNotification
      { MLflowTrackingURI := "http://mlflow:5000", TelegramBotToken := "",
        TelegramChatID := "", PollInterval := 30, MetricThresholds := [],
        SlackWebhookURL := "", MessageChannels := "" }
      (.status 200) = none := by rfl

/-- C7 amended: a telegram send fails exactly when the remote call fails
at transport level or answers a non-200 status — the bot token and chat
ID are embedded in the request but never validated locally; a slack send
fails with the distinct configuration error `slack webhook URL is not
configured` whenever the webhook URL is unset, before the transport
outcome is even consulted, and otherwise fails on transport error or
non-200 status. -/
theorem channel_send_failure_conditions (cfg : Config) (code : Nat) (m : String)
    (resp : HttpSimple) :
    SendTelegramNotification cfg (.status 200) = none
    ∧ (code ≠ 200 →
        SendTelegramNotification cfg (.status code) =
          some ("telegram API returned status code " ++ natToString code))
    ∧ SendTelegramNotification cfg (.transportError m) =
        some ("failed to send Telegram notification: " ++ m)
    ∧ (cfg.SlackWebhookURL = "" →
        SendSlackNotification cfg resp = some "slack webhook URL is not configured")
    ∧ (cfg.SlackWebhookURL ≠ "" →
        SendSlackNotification cfg (.status 200) = none
        ∧ SendSlackNotification cfg (.transportError m) =
            some ("failed to send Slack notification: " ++ m)
        ∧ (code ≠ 200 →
            SendSlackNotification cfg (.status code) =
              some ("Slack API returned status code " ++ natToString code))) := by
  refine ⟨rfl, ?_, rfl, ?_, ?_⟩
  · intro hc
    simp [SendTelegramNotification, hc]
  · intro hurl
    simp [SendSlackNotification, hurl]
  · intro hurl
    refine ⟨?_, ?_, ?_⟩
    · simp [SendSlackNotification, hurl]
    · simp [SendSlackNotification, hurl]
    · intro hc
      simp [SendSlackNotification, hurl, hc]

/-- Witness for C7 amended, at HTTP status 500, a transport failure, and
an unset webhook URL. -/
theorem channel_send_failure_conditions_witness :
    SendTelegramNotification
      { MLflowTrackingURI := "http://mlflow:5000", TelegramBotToken := "t0k",
        TelegramChatID := "42", PollInterval := 30, MetricThresholds := [],
        SlackWebhookURL := "", MessageChannels := "" }
      (.status 500) = some "telegram API returned status code 500"
    ∧ SendSlackNotification
      { MLflowTrackingURI := "http://mlflow:5000", TelegramBotToken := "t0k",
        TelegramChatID := "42", PollInterval := 30, MetricThresholds := [],
        SlackWebhookURL := "", MessageChannels := "" }
      (.status 200) = some "slack webhook URL is not configured" := by
  obtain ⟨_, h2, _, h4, _⟩ := channel_send_failure_conditions
    { MLflowTrackingURI := "http://mlflow:5000", TelegramBotToken := "t0k",
      TelegramChatID := "42", PollInterval := 30, MetricThresholds := [],
      SlackWebhookURL := "", MessageChannels := "" }
    500 "dial tcp: connection refused" (.status 200)
  exact ⟨by simpa using h2 (by decide), h4 rfl⟩

/-- One step of the formulation loop, phrased through `usableRuns`: a
failing or empty formulation falls through to the rest, a usable
non-empty one returns at once. -/
theorem tryFormulations_cons (respond : SearchFormulation → HttpResp (List RunEntry))
    (f : SearchFormulation) (rest : List SearchFormulation) :
    tryFormulations respond (f :: rest) =
      if (usableRuns (respond f)).length > 0 then usableRuns (respond f)
      else tryFormulations respond rest := by
  have step : tryFormulations respond (f :: rest) =
      match respond f with
      | .transportError _ => tryFormulations respond rest
      | .response status parsed =>
        if status ≠ 200 then tryFormulations respond rest
        else
          match parsed with
          | .error _ => tryFormulations respond rest
          | .ok runs =>
            if runs.length > 0 then runs else tryFormulations respond rest := rfl
  rw [step]
  unfold usableRuns
  cases respond f with
  | transportError m => simp
  | response status parsed =>
    by_cases hs : status = 200
    · cases parsed with
      | error m => simp [hs]
      | ok runs => simp [hs]
    · cases parsed with
      | error m => simp [hs]
      | ok runs => simp [hs]

/-- Formulations that fail or come back empty are skipped in order. -/
theorem tryFormulations_append_skip (respond : SearchFormulation → HttpResp (List RunEntry))
    (pre tail : List SearchFormulation)
    (hpre : ∀ g ∈ pre, usableRuns (respond g) = []) :
    tryFormulations respond (pre ++ tail) = tryFormulations respond tail := by
  induction pre with
  | nil => rfl
  | cons g gs ih =>
    rw [List.cons_append, tryFormulations_cons]
    rw [hpre g (by simp)]
    simpa using ih fun x hx => hpre x (by simp [hx])

/-- C4: the global scanner tries its ordered formulation sequence and
returns the result set of the first formulation yielding a non-empty
parsed run list, untouched by later formulations and never merged with
earlier (empty or failed) ones; when every formulation fails or comes
back empty it reports an empty run set with a `nil` error rather than
failing. -/
theorem getAllActiveRuns_first_nonempty (respond : SearchFormulation → HttpResp (List RunEntry))
    (pre : List SearchFormulation) (f : SearchFormulation) (rest : List SearchFormulation)
    (runs : List RunEntry) :
    (searchFormulations = pre ++ f :: rest →
      (∀ g ∈ pre, usableRuns (respond g) = []) →
      usableRuns (respond f) = runs → runs ≠ [] →
      getAllActiveRuns respond = .ok runs)
    ∧ ((∀ g ∈ searchFormulations, usableRuns (respond g) = []) →
      getAllActiveRuns respond = .ok []) := by
  constructor
  · intro hsplit hpre hf hne
    unfold getAllActiveRuns
    rw [hsplit, tryFormulations_append_skip respond pre (f :: rest) hpre,
      tryFormulations_cons, hf]
    have : runs.length > 0 := List.length_pos.mpr hne
    simp [this]
  · intro hall
    unfold getAllActiveRuns
    rw [show searchFormulations = searchFormulations ++ [] by simp,
      tryFormulations_append_skip respond searchFormulations [] hall]
    rfl

/-- Witness for C4 on the spec's example: formulation 1 parses to zero
runs, formulation 2 to one running run — the scanner returns exactly
that run; and a second environment in which every formulation is empty
reports the empty run set without an error. -/
theorem getAllActiveRuns_first_nonempty_witness :
    getAllActiveRuns
      (fun g =>
        match g with
        | .filterAttributesStatusRunning => .response 200 (.ok [])
        | .filterStatusRunning =>
          .response 200 (.ok [{ info := { runID := "r7", status := "RUNNING", experimentID := "e1" },
                                metrics := [] }])
        | .runViewTypeActiveOnly => .transportError "unreached") =
      .ok [{ info := { runID := "r7", status := "RUNNING", experimentID := "e1" },
             metrics := [] }]
    ∧ getAllActiveRuns (fun _ => .response 200 (.ok [])) = .ok [] := by
  constructor
  · exact (getAllActiveRuns_first_nonempty
      (fun g =>
        match g with
        | .filterAttributesStatusRunning => .response 200 (.ok [])
        | .filterStatusRunning =>
          .response 200 (.ok [{ info := { runID := "r7", status := "RUNNING", experimentID := "e1" },
                                metrics := [] }])
        | .runViewTypeActiveOnly => .transportError "unreached")
      [.filterAttributesStatusRunning] .filterStatusRunning [.runViewTypeActiveOnly]
      [{ info := { runID := "r7", status := "RUNNING", experimentID := "e1" },
         metrics := [] }]).1 rfl (by decide) rfl (by decide)
  · exact (getAllActiveRuns_first_nonempty (fun _ => .response 200 (.ok []))
      [] .filterAttributesStatusRunning [] []).2 (by decide)

/-- C5 counterexample: on the global watch path a transport error from
every search fetch is NOT surfaced to the watch loop — `getAllActiveRuns`
swallows the three failures and returns an empty run set with a `nil`
error, which the loop treats as "no active runs". -/
theorem getAllActiveRuns_swallows_errors_cx :
    getAllActiveRuns (fun _ => .transportError "dial tcp: connection refused") = .ok [] := by
  rfl

/-- C5 amended: on the single-run and experiment paths every transport
error, non-200 response, and parse failure is surfaced to the watch loop
as an error, and the single-run loop reacts to a fetch error by waiting
one poll interval and retrying (never terminating); on the global path
`getAllActiveRuns` instead skips failing formulations and always returns
a `nil` error, reporting an empty run set when all formulations fail. -/
theorem fetch_errors_surfaced_amended (m pm : String) (status : Nat)
    (parsedR : Except String GetRunResponse) (parsedL : Except String (List RunEntry))
    (tbl : ThresholdTable) (runID : String) (notifyErr stopErr : Option String)
    (e : FetchErr) (respond : SearchFormulation → HttpResp (List RunEntry)) :
    getRunDetails (.transportError m) = .error (.transport m)
    ∧ (status ≠ 200 → getRunDetails (.response status parsedR) = .error (.badStatus status))
    ∧ getRunDetails (.response 200 (.error pm)) = .error (.parse pm)
    ∧ getActiveRunsInExperiment (.transportError m) = .error (.transport m)
    ∧ (status ≠ 200 →
        getActiveRunsInExperiment (.response status parsedL) = .error (.badStatus status))
    ∧ getActiveRunsInExperiment (.response 200 (.error pm)) = .error (.parse pm)
    ∧ monitorSpecificRunStep tbl runID
        { fetch := .error e, notifyErr := notifyErr, stopErr := stopErr } = (.retry e, [])
    ∧ ∃ runs, getAllActiveRuns respond = .ok runs := by
  refine ⟨rfl, ?_, rfl, rfl, ?_, rfl, rfl, ⟨tryFormulations respond searchFormulations, rfl⟩⟩
  · intro hs
    simp [getRunDetails, hs]
  · intro hs
    simp [getActiveRunsInExperiment, hs]

/-- Witness for C5 amended, at HTTP status 500 and concrete transport and
parse errors. -/
theorem fetch_errors_surfaced_amended_witness :
    getRunDetails (.response 500
        (.ok { run := { info := { runID := "r1", status := "RUNNING", experimentID := "e1" },
                        metrics := [] } })) = .error (.badStatus 500)
    ∧ getActiveRunsInExperiment (.response 500 (.ok [])) = .error (.badStatus 500)
    ∧ monitorSpecificRunStep [] "r1"
        { fetch := .error (.transport "dial tcp: connection refused"),
          notifyErr := none, stopErr := none } =
        (.retry (.transport "dial tcp: connection refused"), []) := by
  obtain ⟨_, h2, _, _, h5, _, h7, _⟩ := fetch_errors_surfaced_amended
    "dial tcp: connection refused" "unexpected end of JSON input" 500
    (.ok { run := { info := { runID := "r1", status := "RUNNING", experimentID := "e1" },
                    metrics := [] } })
    (.ok []) [] "r1" none none (.transport "dial tcp: connection refused")
    (fun _ => .response 200 (.ok []))
  exact ⟨h2 (by decide), h5 (by decide), h7⟩

/-- C6: on a stop decision the watcher sends the notification and then
issues the stop command unconditionally — whatever the notification
result, and whatever the stop command's own result — and reaches its
terminal outcome with neither failure escalated to the caller; the same
holds for `checkRunMetrics` on the experiment and global paths. -/
theorem stop_actions_unconditional (tbl : ThresholdTable) (runID : String)
    (env : PollEnv) (resp : GetRunResponse) (m : Metric) (t : Rat) :
    (env.fetch = .ok resp → resp.run.info.status = "RUNNING" →
      evaluateMetrics tbl resp.run.metrics = .stop m t →
      monitorSpecificRunStep tbl runID env =
        (.stopped m t,
         [.notified (stopMessage runID m t) env.notifyErr,
          .stopIssued runID env.stopErr]))
    ∧ (∀ (fetched : GetRunResponse) (notifyErr stopErr : Option String),
        evaluateMetrics tbl fetched.run.metrics = .stop m t →
        checkRunMetrics tbl runID (.ok fetched) notifyErr stopErr =
          [.notified (stopMessage runID m t) notifyErr,
           .stopIssued runID stopErr]) := by
  constructor
  · intro hf hs heval
    unfold monitorSpecificRunStep
    rw [hf]
    simp [hs, heval]
  · intro fetched notifyErr stopErr heval
    have step : checkRunMetrics tbl runID (.ok fetched) notifyErr stopErr =
        match evaluateMetrics tbl fetched.run.metrics with
        | .stop m t =>
          [Effect.notified (stopMessage runID m t) notifyErr,
           Effect.stopIssued runID stopErr]
        | .cont => [] := rfl
    rw [step, heval]

/-- Witness for C6: a breaching poll where the notification fails AND the
stop command fails — both attempts are still made, in order, and the
watcher still reaches its terminal `stopped` outcome. -/
theorem stop_actions_unconditional_witness :
    monitorSpecificRunStep [("loss", (1 : Rat))] "r1"
      { fetch := .ok { run := { info := { runID := "r1", status := "RUNNING", experimentID := "e1" },
                                metrics := [⟨"loss", 2, 0, 0⟩] } },
        notifyErr := some "telegram API returned status code 401",
        stopErr := some "MLflow API returned status code 500" } =
      (.stopped ⟨"loss", 2, 0, 0⟩ 1,
       [.notified (stopMessage "r1" ⟨"loss", 2, 0, 0⟩ 1)
          (some "telegram API returned status code 401"),
        .stopIssued "r1" (some "MLflow API returned status code 500")]) :=
  (stop_actions_unconditional [("loss", (1 : Rat))] "r1"
    { fetch := .ok { run := { info := { runID := "r1", status := "RUNNING", experimentID := "e1" },
                              metrics := [⟨"loss", 2, 0, 0⟩] } },
      notifyErr := some "telegram API returned status code 401",
      stopErr := some "MLflow API returned status code 500" }
    { run := { info := { runID := "r1", status := "RUNNING", experimentID := "e1" },
               metrics := [⟨"loss", 2, 0, 0⟩] } }
    ⟨"loss", 2, 0, 0⟩ 1).1 rfl rfl (by decide)

/-- Any string is contained in itself. -/
theorem containsStr_self (s : String) : containsStr s s := List.infix_refl s.data

/-- Containment survives prepending. -/
theorem containsStr_appendL (a s sub : String) (h : containsStr s sub) :
    containsStr (a ++ s) sub := by
  unfold containsStr at h ⊢
  rw [String.data_append]
  exact h.trans ( List.IsSuffix.isInfix (List.suffix_append a.data s.data))

/-- Containment survives appending. -/
theorem containsStr_appendR (s b sub : String) (h : containsStr s sub) :
    containsStr (s ++ b) sub := by
  unfold containsStr at h ⊢
  rw [String.data_append]
  exact h.trans ( List.IsPrefix.isInfix (List.prefix_append s.data b.data))

/-- C8: every stop message contains the run ID, the triggering metric's
name, its observed value and the configured bound, the two numbers
rendered with fixed 4-decimal precision; on the spec's example (run
`r1`, bound `loss ↦ 0.5`, readings `accuracy = 0.9`, `loss = 0.7`) the
decision is stop on `loss` and the message contains `r1`, `loss`,
`0.7000` and `0.5000`. -/
theorem stopMessage_content (runID : String) (m : Metric) (t : Rat) :
    (containsStr (stopMessage runID m t) runID
     ∧ containsStr (stopMessage runID m t) m.key
     ∧ containsStr (stopMessage runID m t) (formatFixed4 m.value)
     ∧ containsStr (stopMessage runID m t) (formatFixed4 t))
    ∧ (evaluateMetrics [("loss", mkRat 1 2)]
        [⟨"accuracy", mkRat 9 10, 0, 0⟩, ⟨"loss", mkRat 7 10, 0, 0⟩] =
          .stop ⟨"loss", mkRat 7 10, 0, 0⟩ (mkRat 1 2)
       ∧ formatFixed4 (mkRat 7 10) = "0.7000"
       ∧ formatFixed4 (mkRat 1 2) = "0.5000"
       ∧ containsStr (stopMessage "r1" ⟨"loss", mkRat 7 10, 0, 0⟩ (mkRat 1 2)) "r1"
       ∧ containsStr (stopMessage "r1" ⟨"loss", mkRat 7 10, 0, 0⟩ (mkRat 1 2)) "loss"
       ∧ containsStr (stopMessage "r1" ⟨"loss", mkRat 7 10, 0, 0⟩ (mkRat 1 2)) "0.7000"
       ∧ containsStr (stopMessage "r1" ⟨"loss", mkRat 7 10, 0, 0⟩ (mkRat 1 2)) "0.5000") := by
  constructor
  · refine ⟨?_, ?_, ?_, ?_⟩
    · exact containsStr_appendR _ _ _ (containsStr_appendR _ _ _ (containsStr_appendR _ _ _
        (containsStr_appendR _ _ _ (containsStr_appendR _ _ _ (containsStr_appendR _ _ _
          (containsStr_appendL "🚫 Stopping run " runID runID (containsStr_self runID)))))))
    · exact containsStr_appendR _ _ _ (containsStr_appendR _ _ _ (containsStr_appendR _ _ _
        (containsStr_appendR _ _ _
          (containsStr_appendL _ m.key m.key (containsStr_self m.key)))))
    · exact containsStr_appendR _ _ _ (containsStr_appendR _ _ _
        (containsStr_appendL _ (formatFixed4 m.value) (formatFixed4 m.value)
          (containsStr_self (formatFixed4 m.value))))
    · exact containsStr_appendL _ (formatFixed4 t) (formatFixed4 t)
        (containsStr_self (formatFixed4 t))
  · exact ⟨by decide, by decide, by decide, by decide, by decide, by decide, by decide⟩

/-- Per-poll case analysis of `monitorSpecificRunStep`: every iteration is
a retry, a non-running completion, a clean continue (all with no
effects), or a breach producing exactly the notification followed by the
stop command. -/
theorem monitorSpecificRunStep_cases (tbl : ThresholdTable) (runID : String) (env : PollEnv) :
    (∃ e, monitorSpecificRunStep tbl runID env = (.retry e, []))
    ∨ (∃ s, monitorSpecificRunStep tbl runID env = (.finishedNonRunning s, []))
    ∨ monitorSpecificRunStep tbl runID env = (.continuePolling, [])
    ∨ (∃ m t, monitorSpecificRunStep tbl runID env =
        (.stopped m t,
         [.notified (stopMessage runID m t) env.notifyErr,
          .stopIssued runID env.stopErr])) := by
  unfold monitorSpecificRunStep
  cases env.fetch with
  | error e => exact Or.inl ⟨e, rfl⟩
  | ok resp =>
    by_cases hs : resp.run.info.status = "RUNNING"
    · cases hev : evaluateMetrics tbl resp.run.metrics with
      | cont =>
        refine Or.inr (Or.inr (Or.inl ?_))
        simp [hs, hev]
      | stop m t =>
        refine Or.inr (Or.inr (Or.inr ⟨m, t, ?_⟩))
        simp [hs, hev]
    · refine Or.inr (Or.inl ⟨resp.run.info.status, ?_⟩)
      simp [hs]

/-- C9 counterexample: the experiment loop keeps no watch set.  Two
consecutive cycles in which the search still lists run `r1` (the stop
attempt having failed with HTTP 500) issue the stop command for `r1`
twice, so "never evaluated or issued a stop command again ... even if
that attempt failed" is false on the experiment watch path. -/
theorem experiment_loop_reissues_stop_cx :
    countStops (monitorExperimentTrace [("loss", (1 : Rat))]
      (List.replicate 2
        { search := .ok [{ info := { runID := "r1", status := "RUNNING", experimentID := "e1" },
                           metrics := [] }],
          details := fun rid =>
            .ok { run := { info := { runID := rid, status := "RUNNING", experimentID := "e1" },
                           metrics := [⟨"loss", 2, 0, 0⟩] } },
          notifyErr := none,
          stopErr := some "MLflow API returned status code 500" })) = 2 := by decide

/-- C9 amended: on the single-run path at most one stop command is ever
issued in a process invocation — the watcher returns right after the
single attempt (or on the first non-running snapshot) and never
re-evaluates; the experiment and global loops keep no watch set, so a
run the tracking service still reports is re-evaluated each cycle and
can be issued further stop commands (three cycles re-listing a breaching
run issue three stops). -/
theorem single_run_stop_at_most_once (tbl : ThresholdTable) (runID : String)
    (envs : List PollEnv) :
    countStops (monitorSpecificRunTrace tbl runID envs) ≤ 1
    ∧ countStops (monitorExperimentTrace [("loss", (1 : Rat))]
        (List.replicate 3
          { search := .ok [{ info := { runID := "r9", status := "RUNNING", experimentID := "e1" },
                             metrics := [] }],
            details := fun rid =>
              .ok { run := { info := { runID := rid, status := "RUNNING", experimentID := "e1" },
                             metrics := [⟨"loss", 2, 0, 0⟩] } },
            notifyErr := none,
            stopErr := some "MLflow API returned status code 500" })) = 3 := by
  constructor
  · induction envs with
    | nil => simp [monitorSpecificRunTrace, countStops]
    | cons env rest ih =>
      have step : monitorSpecificRunTrace tbl runID (env :: rest) =
          match monitorSpecificRunStep tbl runID env with
          | (.retry _, effects) => effects ++ monitorSpecificRunTrace tbl runID rest
          | (.continuePolling, effects) => effects ++ monitorSpecificRunTrace tbl runID rest
          | (.finishedNonRunning _, effects) => effects
          | (.stopped _ _, effects) => effects := rfl
      rcases monitorSpecificRunStep_cases tbl runID env with
        ⟨e, h⟩ | ⟨s, h⟩ | h | ⟨m, t, h⟩
      · rw [step, h]
        simpa using ih
      · rw [step, h]
        simp [countStops]
      · rw [step, h]
        simpa using ih
      · rw [step, h]
        simp [countStops, List.countP_cons]
  · decide
